import Mathlib

/-!
Verification of `src/renderer/src/native/macos_window_manager.cc`, a small
N-API bridge exposing `getScreenInfo` and `forceWindowOverDock`.

Modelling choices (shallow embedding):
* `CGFloat` / `double` coordinates are modelled as `ℚ` (exact, executable
  idealisation of finite doubles).
* The OS-reported display geometry (`CGDisplayBounds(CGMainDisplayID())`,
  `[mainScreen visibleFrame]`, `[mainScreen frame]`) is an input record
  `DisplayState`; the bridge only reads it.
* `[NSApp windows]` is a `List Window`; each `Window` carries the fields the
  bridge touches (`windowNumber`, `level`, `frame`, `collectionBehavior`,
  `movable`).
* The four Objective-C mutation messages are recorded as a `Mutation` trace so
  that order and the `display:YES animate:NO` flags are observable.
* `info[0].As<Napi::Number>().Int32Value()` performs the ECMAScript `ToInt32`
  conversion: truncate toward zero, then wrap into the signed 32-bit range.
  JS numbers reaching the bridge are modelled as `ℚ` (finite doubles).
* A thrown `Napi::TypeError` surfaces as `Except.error`.
-/

/-- A rectangle in platform screen coordinates (`CGRect` / `NSRect`). -/
structure Rect where
  x : ℚ
  y : ℚ
  width : ℚ
  height : ℚ
deriving DecidableEq, Repr

/-- The display geometry the OS reports to `GetScreenInfo`.
`screenBounds` models `CGDisplayBounds(CGMainDisplayID())`,
`visibleFrame` models `[mainScreen visibleFrame]`,
`fullFrame` models `[mainScreen frame]`. -/
structure DisplayState where
  screenBounds : Rect
  visibleFrame : Rect
  fullFrame : Rect
deriving DecidableEq, Repr

/-- The object returned by `GetScreenInfo`:
`{screen: {...}, visible: {...}, dockHeight}`. -/
structure ScreenInfo where
  screen : Rect
  visible : Rect
  dockHeight : ℚ
deriving DecidableEq, Repr

/-- One `NSWindow`, restricted to the fields the bridge reads or writes. -/
structure Window where
  windowNumber : Int
  level : Int
  frame : Rect
  collectionBehavior : Nat
  movable : Bool
deriving DecidableEq, Repr

/-- The whole OS state visible to the bridge: the display geometry and the
application's window list `[NSApp windows]`, in enumeration order. -/
structure AppState where
  display : DisplayState
  windows : List Window
deriving DecidableEq, Repr

/-- `kCGDockWindowLevel` (`CGWindowLevelForKey(kCGDockWindowLevelKey)`). -/
def kCGDockWindowLevel : Int := 20

/-- `NSWindowCollectionBehaviorCanJoinAllSpaces` (`1 << 0`). -/
def NSWindowCollectionBehaviorCanJoinAllSpaces : Nat := 1

/-- `NSWindowCollectionBehaviorStationary` (`1 << 4`). -/
def NSWindowCollectionBehaviorStationary : Nat := 16

/-- `NSWindowCollectionBehaviorIgnoresCycle` (`1 << 6`). -/
def NSWindowCollectionBehaviorIgnoresCycle : Nat := 64

/-- `GetScreenInfo` (lines 7-42): reads the main display bounds and the main
screen's visible and full frames, and computes
`dockHeight = fullFrame.size.height - visibleFrame.size.height - visibleFrame.origin.y`. -/
def getScreenInfo (d : DisplayState) : ScreenInfo :=
  { screen := d.screenBounds
    visible := d.visibleFrame
    dockHeight :=
      d.fullFrame.height - d.visibleFrame.height - d.visibleFrame.y }

/-- `GetScreenInfo` as a state transformer on the full `AppState`: the source
function contains no store to any OS object, so the state component is
returned unchanged. -/
def runGetScreenInfo (st : AppState) : ScreenInfo × AppState :=
  (getScreenInfo st.display, st)

/-- Truncation of a JS number toward zero (the first step of ECMAScript
`ToInt32`, as performed by `napi_get_value_int32`). With a positive
denominator, `Int.div` rounds toward zero. -/
def truncateToInt (q : ℚ) : Int := Int.tdiv q.num (Int.ofNat q.den)

/-- `Int32Value` on a `Napi::Number` (line 54): ECMAScript `ToInt32`,
truncate toward zero then wrap into `[-2^31, 2^31)`. -/
def toInt32 (q : ℚ) : Int :=
  (truncateToInt q + 2 ^ 31) % 2 ^ 32 - 2 ^ 31

/-- One Objective-C mutation message sent by `ForceWindowOverDock`. -/
inductive Mutation where
  | setLevel (level : Int)
  | setFrame (frame : Rect) (display : Bool) (animate : Bool)
  | setCollectionBehavior (behavior : Nat)
  | setMovable (movable : Bool)
deriving DecidableEq, Repr

/-- Effect of one mutation message on the receiving window. -/
def applyMutation (w : Window) : Mutation → Window
  | .setLevel level => { w with level := level }
  | .setFrame frame _ _ => { w with frame := frame }
  | .setCollectionBehavior behavior => { w with collectionBehavior := behavior }
  | .setMovable movable => { w with movable := movable }

/-- The exact message sequence of lines 77-89, in source order:
`setLevel:kCGDockWindowLevel + 1`, then
`setFrame:NSMakeRect(x, y, width, height) display:YES animate:NO`, then
`setCollectionBehavior:` with the three flags or-ed, then `setMovable:NO`. -/
def dockMutations (x y width height : ℚ) : List Mutation :=
  [ Mutation.setLevel (kCGDockWindowLevel + 1),
    Mutation.setFrame ⟨x, y, width, height⟩ true false,
    Mutation.setCollectionBehavior
      (NSWindowCollectionBehaviorCanJoinAllSpaces |||
       NSWindowCollectionBehaviorStationary |||
       NSWindowCollectionBehaviorIgnoresCycle),
    Mutation.setMovable false ]

/-- Net effect of the four mutation messages on the target window. -/
def overDockWindow (x y width height : ℚ) (w : Window) : Window :=
  (dockMutations x y width height).foldl applyMutation w

/-- The `for (NSWindow* window in windows)` loop of lines 65-70 fused with the
mutations applied to the match: walk the list in order, transform the first
window whose `windowNumber` equals `windowId`, stop there (`break`), report
whether a match was found. -/
def updateFirst (windowId : Int) (f : Window → Window) :
    List Window → List Window × Bool
  | [] => ([], false)
  | w :: ws =>
    if w.windowNumber = windowId then
      (f w :: ws, true)
    else
      let r := updateFirst windowId f ws
      (w :: r.1, r.2)

/-- Full outcome of one `ForceWindowOverDock` call: the value handed back to
JS (`Except.error` models a thrown `Napi::TypeError`), the post-call OS
state, and the ordered trace of mutation messages sent. -/
structure ForceOutcome where
  returned : Except String Bool
  post : AppState
  trace : List Mutation
deriving Repr

/-- Argument access `info[i]` restricted to the guarded range: the bridge
reads `info[0]` .. `info[4]` only after checking `info.Length() >= 5`, so the
default value is never observable. -/
def argD (args : List ℚ) (i : Nat) : ℚ :=
  args.getD i 0

/-- `ForceWindowOverDock` (lines 45-93): throw on fewer than 5 arguments;
read `windowId` via `Int32Value` and the rectangle via `DoubleValue`;
linearly scan `[NSApp windows]` for the first window with that number;
return `false` when none matches; otherwise send the four mutation messages
and return `true`. -/
def forceWindowOverDock (args : List ℚ) (st : AppState) : ForceOutcome :=
  if args.length < 5 then
    ⟨Except.error "Wrong number of arguments", st, []⟩
  else
    let windowId := toInt32 (argD args 0)
    let x := argD args 1
    let y := argD args 2
    let width := argD args 3
    let height := argD args 4
    let r := updateFirst windowId (overDockWindow x y width height) st.windows
    if r.2 then
      ⟨Except.ok true, { st with windows := r.1 }, dockMutations x y width height⟩
    else
      ⟨Except.ok false, st, []⟩

/-- A window matching `windowId` exists in the list (the loop finds one). -/
def hasMatch (windowId : Int) (ws : List Window) : Prop :=
  ∃ w ∈ ws, w.windowNumber = windowId

instance (windowId : Int) (ws : List Window) : Decidable (hasMatch windowId ws) := by
  unfold hasMatch
  infer_instance

/-- A typical laptop display: 1440x900 screen, menu bar (25pt) and dock (60pt)
reserved, so the visible frame is 1440x815 starting at y = 60. -/
def sampleDisplay : DisplayState :=
  ⟨⟨0, 0, 1440, 900⟩, ⟨0, 60, 1440, 815⟩, ⟨0, 0, 1440, 900⟩⟩

/-- A geometrically inconsistent pair of OS reports: the visible frame is
wider and taller than the display bounds, so width/height monotonicity and
`dockHeight ≥ 0` both fail. The bridge performs no clamping. -/
def badDisplay : DisplayState :=
  ⟨⟨0, 0, 1000, 800⟩, ⟨0, 0, 2000, 900⟩, ⟨0, 0, 1000, 800⟩⟩

/-- A sample window with OS-assigned number 42. -/
def sampleWindow : Window :=
  ⟨42, 0, ⟨10, 10, 100, 100⟩, 0, true⟩

/-- A sample window with OS-assigned number 5. -/
def sampleWindow5 : Window :=
  ⟨5, 3, ⟨20, 20, 200, 200⟩, 4, true⟩

/-- A second window also numbered 5, behind `sampleWindow5` in enumeration
order (identifiers are unique for live OS windows, but the scan itself does
not assume that). -/
def sampleWindow5b : Window :=
  ⟨5, 8, ⟨30, 30, 300, 300⟩, 2, true⟩

/-- A window whose OS-assigned number lies outside the signed 32-bit range. -/
def bigWindow : Window :=
  ⟨2 ^ 31, 0, ⟨0, 0, 50, 50⟩, 0, true⟩

/- ### Helper lemmas about `updateFirst` -/

theorem updateFirst_no_match (windowId : Int) (f : Window → Window)
    (ws : List Window) (h : ∀ w ∈ ws, w.windowNumber ≠ windowId) :
    updateFirst windowId f ws = (ws, false) := by
  induction ws with
  | nil => rfl
  | cons w ws ih =>
    have hw : w.windowNumber ≠ windowId := h w (List.mem_cons_self w ws)
    have hrest : ∀ v ∈ ws, v.windowNumber ≠ windowId :=
      fun v hv => h v (List.mem_cons_of_mem w hv)
    simp [updateFirst, hw, ih hrest]

theorem updateFirst_found (windowId : Int) (f : Window → Window)
    (ws : List Window) (h : hasMatch windowId ws) :
    ∃ i wi, ws[i]? = some wi ∧ wi.windowNumber = windowId ∧
      (∀ j, j < i → ∀ wj, ws[j]? = some wj → wj.windowNumber ≠ windowId) ∧
      updateFirst windowId f ws = (ws.set i (f wi), true) := by
  induction ws with
  | nil => rcases h with ⟨w, hw, _⟩; simp at hw
  | cons w ws ih =>
    by_cases hw : w.windowNumber = windowId
    · refine ⟨0, w, by simp, hw, ?_, ?_⟩
      · intro j hj wj _ _; omega
      · simp [updateFirst, hw]
    · have h' : hasMatch windowId ws := by
        rcases h with ⟨v, hv, hvid⟩
        rcases List.mem_cons.mp hv with hveq | hvmem
        · exact absurd (hveq ▸ hvid) hw
        · exact ⟨v, hvmem, hvid⟩
      rcases ih h' with ⟨i, wi, hget, hid, hbefore, heq⟩
      refine ⟨i + 1, wi, by simpa using hget, hid, ?_, ?_⟩
      · intro j hj wj hgj
        cases j with
        | zero =>
          have hwj : wj = w := by simpa using hgj.symm
          simpa [hwj] using hw
        | succ j' =>
          have : ws[j']? = some wj := by simpa using hgj
          exact hbefore j' (by omega) wj this
      · simp [updateFirst, hw, heq]

theorem updateFirst_idem (windowId : Int) (f : Window → Window)
    (hnum : ∀ w, (f w).windowNumber = w.windowNumber)
    (hff : ∀ w, f (f w) = f w) (ws : List Window) :
    (updateFirst windowId f (updateFirst windowId f ws).1).1 =
      (updateFirst windowId f ws).1 := by
  induction ws with
  | nil => rfl
  | cons w ws ih =>
    by_cases hw : w.windowNumber = windowId
    · simp [updateFirst, hw, hnum, hff]
    · simp [updateFirst, hw] at ih ⊢
      exact ih

theorem overDockWindow_eq (x y width height : ℚ) (w : Window) :
    overDockWindow x y width height w =
      { w with
        level := kCGDockWindowLevel + 1
        frame := ⟨x, y, width, height⟩
        collectionBehavior :=
          NSWindowCollectionBehaviorCanJoinAllSpaces |||
          NSWindowCollectionBehaviorStationary |||
          NSWindowCollectionBehaviorIgnoresCycle
        movable := false } := rfl

theorem getElem?_set_self (l : List Window) (i : Nat) (a : Window)
    (h : i < l.length) : (l.set i a)[i]? = some a := by
  induction l generalizing i with
  | nil => simp at h
  | cons w ws ih =>
    cases i with
    | zero => simp
    | succ j =>
      have : j < ws.length := by simpa using h
      simpa using ih j this

/- ### Claim theorems -/

/-- C1: `getScreenInfo` takes no arguments beyond the ambient OS display
state and returns `{screen, visible, dockHeight}` where `screen` is the
primary display's bounds, `visible` is the main screen's work-area frame, and
`dockHeight = fullFrame.height - visibleFrame.height - visibleFrame.origin.y`,
for every OS-reported pair of frames. -/
theorem getScreenInfo_returns_frames (st : AppState) :
    (runGetScreenInfo st).1.screen = st.display.screenBounds ∧
    (runGetScreenInfo st).1.visible = st.display.visibleFrame ∧
    (runGetScreenInfo st).1.dockHeight =
      st.display.fullFrame.height - st.display.visibleFrame.height -
        st.display.visibleFrame.y :=
  ⟨rfl, rfl, rfl⟩

/-- C9: `getScreenInfo` is a pure read: it mutates no window or display
state, and two calls made against an identical OS display state return
identical results. -/
theorem getScreenInfo_pure (s t : AppState) (h : s.display = t.display) :
    (runGetScreenInfo s).2 = s ∧ (runGetScreenInfo t).2 = t ∧
    (runGetScreenInfo s).1 = (runGetScreenInfo t).1 :=
  ⟨rfl, rfl, by simp [runGetScreenInfo, h]⟩

/-- Witness for C9: two states sharing `sampleDisplay` but holding different
window lists; the query leaves both untouched and returns the same info. -/
theorem getScreenInfo_pure_witness :
    (runGetScreenInfo ⟨sampleDisplay, [sampleWindow]⟩).2 =
        ⟨sampleDisplay, [sampleWindow]⟩ ∧
    (runGetScreenInfo ⟨sampleDisplay, []⟩).2 = ⟨sampleDisplay, []⟩ ∧
    (runGetScreenInfo ⟨sampleDisplay, [sampleWindow]⟩).1 =
      (runGetScreenInfo ⟨sampleDisplay, []⟩).1 :=
  getScreenInfo_pure ⟨sampleDisplay, [sampleWindow]⟩ ⟨sampleDisplay, []⟩ rfl

/-- C4: a call to `forceWindowOverDock` with fewer than 5 arguments throws a
`TypeError` ("Wrong number of arguments"), leaves the OS state unchanged, and
sends no mutation message. -/
theorem forceWindowOverDock_too_few_args (args : List ℚ) (st : AppState)
    (h : args.length < 5) :
    forceWindowOverDock args st =
      ⟨Except.error "Wrong number of arguments", st, []⟩ := by
  simp [forceWindowOverDock, h]

/-- Witness for C4: a two-argument call on a one-window state. -/
theorem forceWindowOverDock_too_few_args_witness :
    ([(1 : ℚ), 2].length < 5) ∧
    forceWindowOverDock [1, 2] ⟨sampleDisplay, [sampleWindow]⟩ =
      ⟨Except.error "Wrong number of arguments",
        ⟨sampleDisplay, [sampleWindow]⟩, []⟩ :=
  ⟨by decide, forceWindowOverDock_too_few_args _ _ (by decide)⟩

/-- C3: a call with at least 5 arguments whose (32-bit-truncated) window
identifier matches no window returns `false`, does not throw, and mutates no
window's state. -/
theorem forceWindowOverDock_not_found (args : List ℚ) (st : AppState)
    (hlen : 5 ≤ args.length)
    (h : ∀ w ∈ st.windows, w.windowNumber ≠ toInt32 (argD args 0)) :
    forceWindowOverDock args st = ⟨Except.ok false, st, []⟩ := by
  have hlt : ¬ args.length < 5 := by omega
  simp [forceWindowOverDock, hlt, updateFirst_no_match _ _ _ h]

/-- Witness for C3: identifier 7 against a list holding only window 42. -/
theorem forceWindowOverDock_not_found_witness :
    (5 ≤ ([(7 : ℚ), 0, 0, 800, 600] : List ℚ).length) ∧
    (∀ w ∈ ([sampleWindow] : List Window),
      w.windowNumber ≠ toInt32 (argD [7, 0, 0, 800, 600] 0)) ∧
    forceWindowOverDock [7, 0, 0, 800, 600] ⟨sampleDisplay, [sampleWindow]⟩ =
      ⟨Except.ok false, ⟨sampleDisplay, [sampleWindow]⟩, []⟩ :=
  ⟨by decide, by decide,
    forceWindowOverDock_not_found _ _ (by decide) (by decide)⟩

/-- Counterexample to C6: a call with 6 arguments does not signal an
invocation error — the source only checks `info.Length() < 5`, so the extra
argument is ignored and the call completes normally, returning `true`. -/
theorem forceWindowOverDock_six_args_no_error :
    [(42 : ℚ), 0, 0, 800, 600, 99].length = 6 ∧
    (forceWindowOverDock [42, 0, 0, 800, 600, 99]
        ⟨sampleDisplay, [sampleWindow]⟩).returned = Except.ok true := by
  constructor
  · rfl
  · rfl

/-- C6 (amended): `forceWindowOverDock` signals an invocation error exactly
when fewer than 5 arguments are supplied; calls with 5 or more arguments
(extra arguments ignored) proceed without an invocation error. -/
theorem forceWindowOverDock_error_iff_lt_five (args : List ℚ) (st : AppState) :
    (forceWindowOverDock args st).returned =
        Except.error "Wrong number of arguments" ↔ args.length < 5 := by
  by_cases h : args.length < 5
  · simp [forceWindowOverDock, h]
  · cases hr : (updateFirst (toInt32 (argD args 0))
        (overDockWindow (argD args 1) (argD args 2) (argD args 3)
          (argD args 4)) st.windows).2 <;>
      simp [forceWindowOverDock, h, hr]

/-- C5: when at least one window's number equals the (32-bit-truncated)
input, the linear scan selects the first such window in enumeration order,
only that window is replaced (all others are untouched, as expressed by
`List.set`), and the call returns `true`. -/
theorem forceWindowOverDock_first_match (args : List ℚ) (st : AppState)
    (hlen : 5 ≤ args.length)
    (h : hasMatch (toInt32 (argD args 0)) st.windows) :
    ∃ i wi, st.windows[i]? = some wi ∧
      wi.windowNumber = toInt32 (argD args 0) ∧
      (∀ j, j < i → ∀ wj, st.windows[j]? = some wj →
        wj.windowNumber ≠ toInt32 (argD args 0)) ∧
      (forceWindowOverDock args st).returned = Except.ok true ∧
      (forceWindowOverDock args st).post.display = st.display ∧
      (forceWindowOverDock args st).post.windows =
        st.windows.set i
          (overDockWindow (argD args 1) (argD args 2) (argD args 3)
            (argD args 4) wi) := by
  have hlt : ¬ args.length < 5 := by omega
  rcases updateFirst_found (toInt32 (argD args 0))
      (overDockWindow (argD args 1) (argD args 2) (argD args 3) (argD args 4))
      st.windows h with ⟨i, wi, hget, hid, hbefore, heq⟩
  exact ⟨i, wi, hget, hid, hbefore,
    by simp [forceWindowOverDock, hlt, heq],
    by simp [forceWindowOverDock, hlt, heq],
    by simp [forceWindowOverDock, hlt, heq]⟩

/-- Witness for C5: two windows both numbered 5; the scan picks the first
and leaves the second untouched. -/
theorem forceWindowOverDock_first_match_witness :
    (5 ≤ ([(5 : ℚ), 1, 2, 300, 400] : List ℚ).length) ∧
    hasMatch (toInt32 (argD [5, 1, 2, 300, 400] 0))
      (AppState.windows ⟨sampleDisplay, [sampleWindow5, sampleWindow5b]⟩) ∧
    (∃ (i : Nat) (wi : Window),
      (AppState.windows ⟨sampleDisplay, [sampleWindow5, sampleWindow5b]⟩)[i]? =
          some wi ∧
      wi.windowNumber = toInt32 (argD [5, 1, 2, 300, 400] 0) ∧
      (∀ j, j < i → ∀ wj,
        (AppState.windows
            ⟨sampleDisplay, [sampleWindow5, sampleWindow5b]⟩)[j]? = some wj →
        wj.windowNumber ≠ toInt32 (argD [5, 1, 2, 300, 400] 0)) ∧
      (forceWindowOverDock [5, 1, 2, 300, 400]
          ⟨sampleDisplay, [sampleWindow5, sampleWindow5b]⟩).returned =
        Except.ok true ∧
      (forceWindowOverDock [5, 1, 2, 300, 400]
          ⟨sampleDisplay, [sampleWindow5, sampleWindow5b]⟩).post.display =
        sampleDisplay ∧
      (forceWindowOverDock [5, 1, 2, 300, 400]
          ⟨sampleDisplay, [sampleWindow5, sampleWindow5b]⟩).post.windows =
        (AppState.windows ⟨sampleDisplay, [sampleWindow5, sampleWindow5b]⟩).set
          i
          (overDockWindow (argD [5, 1, 2, 300, 400] 1)
            (argD [5, 1, 2, 300, 400] 2) (argD [5, 1, 2, 300, 400] 3)
            (argD [5, 1, 2, 300, 400] 4) wi)) :=
  ⟨by decide, by decide,
    forceWindowOverDock_first_match [5, 1, 2, 300, 400]
      ⟨sampleDisplay, [sampleWindow5, sampleWindow5b]⟩ (by decide) (by decide)⟩

/-- C2: on a match, the mutation messages sent are exactly, in order:
set the level to `kCGDockWindowLevel + 1`; set the frame to the requested
rectangle with `display:YES animate:NO`; set the collection behavior to the
union of the can-join-all-spaces, stationary and ignores-cycle flags; make
the window non-movable. The matched window's final state reflects all four. -/
theorem forceWindowOverDock_mutation_sequence (args : List ℚ) (st : AppState)
    (hlen : 5 ≤ args.length)
    (h : hasMatch (toInt32 (argD args 0)) st.windows) :
    (forceWindowOverDock args st).trace =
      [ Mutation.setLevel (kCGDockWindowLevel + 1),
        Mutation.setFrame
          ⟨argD args 1, argD args 2, argD args 3, argD args 4⟩ true false,
        Mutation.setCollectionBehavior
          (NSWindowCollectionBehaviorCanJoinAllSpaces |||
           NSWindowCollectionBehaviorStationary |||
           NSWindowCollectionBehaviorIgnoresCycle),
        Mutation.setMovable false ] ∧
    ∃ (i : Nat) (wi : Window), st.windows[i]? = some wi ∧
      wi.windowNumber = toInt32 (argD args 0) ∧
      (forceWindowOverDock args st).post.windows[i]? = some
        { wi with
          level := kCGDockWindowLevel + 1
          frame := ⟨argD args 1, argD args 2, argD args 3, argD args 4⟩
          collectionBehavior :=
            NSWindowCollectionBehaviorCanJoinAllSpaces |||
            NSWindowCollectionBehaviorStationary |||
            NSWindowCollectionBehaviorIgnoresCycle
          movable := false } := by
  have hlt : ¬ args.length < 5 := by omega
  rcases updateFirst_found (toInt32 (argD args 0))
      (overDockWindow (argD args 1) (argD args 2) (argD args 3) (argD args 4))
      st.windows h with ⟨i, wi, hget, hid, _, heq⟩
  have hi : i < st.windows.length := by
    rcases List.getElem?_eq_some.mp hget with ⟨hlt', _⟩
    exact hlt'
  refine ⟨by simp [forceWindowOverDock, hlt, heq, dockMutations], i, wi, hget,
    hid, ?_⟩
  have hpost : (forceWindowOverDock args st).post.windows =
      st.windows.set i
        (overDockWindow (argD args 1) (argD args 2) (argD args 3)
          (argD args 4) wi) := by
    simp [forceWindowOverDock, hlt, heq]
  rw [hpost, getElem?_set_self _ _ _ hi, overDockWindow_eq]

/-- Witness for C2: window 42 forced to `(0, 0, 800, 600)`. -/
theorem forceWindowOverDock_mutation_sequence_witness :
    (5 ≤ ([(42 : ℚ), 0, 0, 800, 600] : List ℚ).length) ∧
    hasMatch (toInt32 (argD [42, 0, 0, 800, 600] 0))
      (AppState.windows ⟨sampleDisplay, [sampleWindow]⟩) ∧
    ((forceWindowOverDock [42, 0, 0, 800, 600]
          ⟨sampleDisplay, [sampleWindow]⟩).trace =
      [ Mutation.setLevel (kCGDockWindowLevel + 1),
        Mutation.setFrame
          ⟨argD [42, 0, 0, 800, 600] 1, argD [42, 0, 0, 800, 600] 2,
            argD [42, 0, 0, 800, 600] 3, argD [42, 0, 0, 800, 600] 4⟩
          true false,
        Mutation.setCollectionBehavior
          (NSWindowCollectionBehaviorCanJoinAllSpaces |||
           NSWindowCollectionBehaviorStationary |||
           NSWindowCollectionBehaviorIgnoresCycle),
        Mutation.setMovable false ] ∧
    ∃ (i : Nat) (wi : Window),
      (AppState.windows ⟨sampleDisplay, [sampleWindow]⟩)[i]? = some wi ∧
      wi.windowNumber = toInt32 (argD [42, 0, 0, 800, 600] 0) ∧
      (forceWindowOverDock [42, 0, 0, 800, 600]
          ⟨sampleDisplay, [sampleWindow]⟩).post.windows[i]? = some
        { wi with
          level := kCGDockWindowLevel + 1
          frame := ⟨argD [42, 0, 0, 800, 600] 1, argD [42, 0, 0, 800, 600] 2,
            argD [42, 0, 0, 800, 600] 3, argD [42, 0, 0, 800, 600] 4⟩
          collectionBehavior :=
            NSWindowCollectionBehaviorCanJoinAllSpaces |||
            NSWindowCollectionBehaviorStationary |||
            NSWindowCollectionBehaviorIgnoresCycle
          movable := false }) :=
  ⟨by decide, by decide,
    forceWindowOverDock_mutation_sequence [42, 0, 0, 800, 600]
      ⟨sampleDisplay, [sampleWindow]⟩ (by decide) (by decide)⟩

theorem updateFirst_not_found_list (windowId : Int) (f : Window → Window)
    (ws : List Window) (h : (updateFirst windowId f ws).2 = false) :
    (updateFirst windowId f ws).1 = ws := by
  induction ws with
  | nil => rfl
  | cons w ws ih =>
    by_cases hw : w.windowNumber = windowId
    · simp [updateFirst, hw] at h
    · simp [updateFirst, hw] at h ⊢
      exact ih h

theorem force_post_fixed (args : List ℚ) (s : AppState)
    (hfix : (updateFirst (toInt32 (argD args 0))
        (overDockWindow (argD args 1) (argD args 2) (argD args 3)
          (argD args 4)) s.windows).1 = s.windows) :
    (forceWindowOverDock args s).post = s := by
  by_cases h : args.length < 5
  · simp [forceWindowOverDock, h]
  · cases hr : (updateFirst (toInt32 (argD args 0))
        (overDockWindow (argD args 1) (argD args 2) (argD args 3)
          (argD args 4)) s.windows).2 <;>
      simp [forceWindowOverDock, h, hr, hfix]

/-- C8: `forceWindowOverDock` is idempotent: with a fixed argument list, a
second invocation leaves the OS state exactly where the first left it (this
covers the error, not-found and found cases alike, since every mutation
writes a value that does not depend on the previous window state). -/
theorem forceWindowOverDock_idempotent (args : List ℚ) (st : AppState) :
    (forceWindowOverDock args (forceWindowOverDock args st).post).post =
      (forceWindowOverDock args st).post := by
  by_cases h : args.length < 5
  · simp [forceWindowOverDock, h]
  · apply force_post_fixed
    cases hr : (updateFirst (toInt32 (argD args 0))
        (overDockWindow (argD args 1) (argD args 2) (argD args 3)
          (argD args 4)) st.windows).2
    · have hpost : (forceWindowOverDock args st).post = st := by
        simp [forceWindowOverDock, h, hr]
      rw [hpost]
      exact updateFirst_not_found_list _ _ _ hr
    · have hpost : (forceWindowOverDock args st).post.windows =
          (updateFirst (toInt32 (argD args 0))
            (overDockWindow (argD args 1) (argD args 2) (argD args 3)
              (argD args 4)) st.windows).1 := by
        simp [forceWindowOverDock, h, hr]
      rw [hpost]
      exact updateFirst_idem (toInt32 (argD args 0))
        (overDockWindow (argD args 1) (argD args 2) (argD args 3)
          (argD args 4)) (fun w => rfl) (fun w => rfl) st.windows

theorem argD_cons_zero (q : ℚ) (rest : List ℚ) : argD (q :: rest) 0 = q := rfl

theorem argD_cons_succ (q : ℚ) (rest : List ℚ) (i : Nat) :
    argD (q :: rest) (i + 1) = argD rest i := rfl

/-- C10: the window identifier is put through ECMAScript `ToInt32` before
comparison: any two first arguments with the same 32-bit truncation make the
whole call behave identically, and a window whose OS-assigned number lies
outside the signed 32-bit range can never be matched. -/
theorem windowId_int32_truncation :
    (∀ (q₁ q₂ : ℚ) (rest : List ℚ) (st : AppState),
      toInt32 q₁ = toInt32 q₂ →
      forceWindowOverDock (q₁ :: rest) st =
        forceWindowOverDock (q₂ :: rest) st) ∧
    (∀ w : Window,
      (w.windowNumber < -(2 ^ 31) ∨ 2 ^ 31 ≤ w.windowNumber) →
      ∀ q : ℚ, w.windowNumber ≠ toInt32 q) := by
  constructor
  · intro q₁ q₂ rest st h
    simp only [forceWindowOverDock, argD_cons_zero, argD_cons_succ,
      List.length_cons, h]
  · intro w hw q
    have h0 : 0 ≤ (truncateToInt q + 2 ^ 31) % 2 ^ 32 :=
      Int.emod_nonneg _ (by norm_num)
    have h1 : (truncateToInt q + 2 ^ 31) % 2 ^ 32 < 2 ^ 32 :=
      Int.emod_lt_of_pos _ (by norm_num)
    unfold toInt32
    intro hcon
    rcases hw with hw | hw <;> omega

/-- Witness for C10: `2^32 + 5` and `5` truncate to the same identifier and
produce identical calls; a window numbered `2^31` is out of range and never
matched. -/
theorem windowId_int32_truncation_witness :
    forceWindowOverDock [(4294967301 : ℚ), 0, 0, 800, 600]
        ⟨sampleDisplay, [sampleWindow5]⟩ =
      forceWindowOverDock [(5 : ℚ), 0, 0, 800, 600]
        ⟨sampleDisplay, [sampleWindow5]⟩ ∧
    bigWindow.windowNumber ≠ toInt32 ((2 : ℚ) ^ 31) :=
  ⟨windowId_int32_truncation.1 4294967301 5 [0, 0, 800, 600]
      ⟨sampleDisplay, [sampleWindow5]⟩ (by decide),
    windowId_int32_truncation.2 bigWindow (Or.inr (by decide)) ((2 : ℚ) ^ 31)⟩

/-- Counterexample to C7: the source clamps nothing, so for a geometrically
inconsistent pair of OS reports — a visible frame wider and taller than the
display bounds — all three claimed inequalities fail at once. -/
theorem getScreenInfo_bounds_counterexample :
    ¬ ((getScreenInfo badDisplay).visible.width ≤
          (getScreenInfo badDisplay).screen.width ∧
       (getScreenInfo badDisplay).visible.height ≤
          (getScreenInfo badDisplay).screen.height ∧
       0 ≤ (getScreenInfo badDisplay).dockHeight) := by
  decide

/-- C7 (amended): under the OS geometry invariants — the main screen's full
frame has the same size as the display bounds, and the visible frame fits
inside the full frame relative to a zero origin (`0 ≤ visible.y`,
`visible.width ≤ full.width`, `visible.y + visible.height ≤ full.height`) —
`getScreenInfo` satisfies `visible.width ≤ screen.width`,
`visible.height ≤ screen.height` and `dockHeight ≥ 0`. -/
theorem getScreenInfo_bounds_of_contained (d : DisplayState)
    (hfw : d.fullFrame.width = d.screenBounds.width)
    (hfh : d.fullFrame.height = d.screenBounds.height)
    (hy : 0 ≤ d.visibleFrame.y)
    (hvw : d.visibleFrame.width ≤ d.fullFrame.width)
    (hvh : d.visibleFrame.y + d.visibleFrame.height ≤ d.fullFrame.height) :
    (getScreenInfo d).visible.width ≤ (getScreenInfo d).screen.width ∧
    (getScreenInfo d).visible.height ≤ (getScreenInfo d).screen.height ∧
    0 ≤ (getScreenInfo d).dockHeight := by
  refine ⟨?_, ?_, ?_⟩ <;> simp only [getScreenInfo] <;> linarith

/-- Witness for C7: the 1440x900 sample display with a 1440x815 visible
frame starting at `y = 60` satisfies the invariants and the bounds. -/
theorem getScreenInfo_bounds_witness :
    (getScreenInfo sampleDisplay).visible.width ≤
        (getScreenInfo sampleDisplay).screen.width ∧
    (getScreenInfo sampleDisplay).visible.height ≤
        (getScreenInfo sampleDisplay).screen.height ∧
    0 ≤ (getScreenInfo sampleDisplay).dockHeight :=
  getScreenInfo_bounds_of_contained sampleDisplay (by norm_num [sampleDisplay])
    (by norm_num [sampleDisplay]) (by norm_num [sampleDisplay])
    (by norm_num [sampleDisplay]) (by norm_num [sampleDisplay])
